import Mathlib

/-!
Verification of petpeeve's link model, simple-API index server, and
requirement-specification model, shallowly embedded from the Python source
(`petpeeve/links.py`, `petpeeve/indexes/simpleapi/__init__.py`,
`petpeeve/requirements.py`).  Python strings are modelled as `List Char`
wrapped in `String`; Python exceptions as an explicit `PyError` sum carried
in `Except`; Python `set` as `Finset`; Python `dict`/`defaultdict` as
association lists in insertion order.
-/

namespace Petpeeve

/-- Python exception values that the modelled code can raise.  Constructors
mirror the concrete Python exception classes; `unboundLocalError` models the
interpreter-level crash of reading a local variable that was never
assigned. -/
inductive PyError where
  /-- `ValueError` (also covers its subclass usage such as failed tuple
  unpacking and failed `int()` conversion). -/
  | valueError (msg : String)
  /-- `UnboundLocalError` naming the unassigned local. -/
  | unboundLocalError (localName : String)
  /-- `petpeeve.links.WheelNotFoundError(filename)`. -/
  | wheelNotFound (filename : String)
  /-- `UnwantedLink(filename)` (a `ValueError` subclass used for filtering). -/
  | unwantedLink (filename : String)
  /-- `petpeeve.indexes.exceptions.PackageNotFound(package)`. -/
  | packageNotFound (package : String)
  /-- `petpeeve.indexes.exceptions.APIError(reason)`. -/
  | apiError (reason : String)
deriving Repr, DecidableEq

deriving instance DecidableEq for Except

/-! ## Character/string helpers modelling the Python primitives used. -/

/-- ASCII whitespace recognized by Python's `str.strip` family and by the
regex class `\s` (space, tab, newline, carriage return, vertical tab, form
feed). -/
def isPySpace (c : Char) : Bool :=
  c = ' ' || c = '\t' || c = '\n' || c = '\r' || c = '\x0b' || c = '\x0c'

def isAsciiDigitChar (c : Char) : Bool :=
  '0' ≤ c && c ≤ '9'

def isAsciiAlphaChar (c : Char) : Bool :=
  ('a' ≤ c && c ≤ 'z') || ('A' ≤ c && c ≤ 'Z')

/-- `str.split(sep)` for a one-character separator. -/
def splitChars (sep : Char) : List Char → List (List Char)
  | [] => [[]]
  | c :: cs =>
    let rest := splitChars sep cs
    if c = sep then
      [] :: rest
    else
      match rest with
      | [] => [[c]]
      | r :: rs => (c :: r) :: rs

/-- Whether a character occurs in the list. -/
def containsChar (c : Char) (cs : List Char) : Bool :=
  cs.any (· = c)

/-- `str.endswith(suffix)`. -/
def endsWithChars (suffix cs : List Char) : Bool :=
  decide ((cs.reverse).take suffix.length = suffix.reverse)

/-- Drop the last `n` characters (`s[:-n]`). -/
def dropRightChars (n : Nat) (cs : List Char) : List Char :=
  cs.take (cs.length - n)

/-- `str.rstrip()`: drop trailing Python whitespace. -/
def rstripChars (cs : List Char) : List Char :=
  ((cs.reverse).dropWhile isPySpace).reverse

/-- `str.lstrip()`: drop leading Python whitespace. -/
def lstripChars (cs : List Char) : List Char :=
  cs.dropWhile isPySpace

/-- `str.strip()`. -/
def stripChars (cs : List Char) : List Char :=
  rstripChars (lstripChars cs)

def chstr (cs : List Char) : String := ⟨cs⟩

/-- `s.split(sep)` returning `String`s, one-character separator. -/
def pySplit (s : String) (sep : Char) : List String :=
  (splitChars sep s.data).map chstr

/-- `s.endswith(t)`. -/
def pyEndsWith (s t : String) : Bool :=
  endsWithChars t.data s.data

/-- `s.rsplit(sep, 1)`: split at the last occurrence of `sep` (if any). -/
def pyRsplit1 (s : String) (sep : Char) : List String :=
  match splitChars sep s.data with
  | [] => [s]
  | parts =>
    if parts.length ≤ 1 then [s]
    else
      let last := parts.getLast!
      let front := List.intercalate [sep] (parts.take (parts.length - 1))
      [chstr front, chstr last]

/-- The last `/`-separated segment of a string: `s.rsplit('/', 1)[-1]`. -/
def lastSlashSegment (s : String) : String :=
  match pyRsplit1 s '/' with
  | [a] => a
  | [_, b] => b
  | _ => s

end Petpeeve

namespace Petpeeve

/-! Digit-chain parsing for Python `int(str)`. -/

/-- Parse a chain of ASCII digits possibly separated by single underscores
(each underscore must sit between two digits), as accepted by CPython's
`int()`.  Returns the accumulated value, or `none` if the chain is
malformed or empty. -/
def digitChain : List Char → Nat → Option Nat
  | [], acc => some acc
  | '_' :: c :: cs, acc =>
    if isAsciiDigitChar c then digitChain cs (acc * 10 + (c.toNat - '0'.toNat))
    else none
  | ['_'], _ => none
  | c :: cs, acc =>
    if isAsciiDigitChar c then digitChain cs (acc * 10 + (c.toNat - '0'.toNat))
    else none

/-- CPython `int(s)` on ASCII input: strip whitespace, optional sign, then a
digit chain (a sign must be followed by a digit).  Returns `none` where
Python raises `ValueError`. -/
def pyInt (s : String) : Option Int :=
  match stripChars s.data with
  | [] => none
  | c :: cs =>
    if c = '+' then
      match cs with
      | [] => none
      | c1 :: _ =>
        if isAsciiDigitChar c1 then (digitChain cs 0).map Int.ofNat else none
    else if c = '-' then
      match cs with
      | [] => none
      | c1 :: _ =>
        if isAsciiDigitChar c1 then
          (digitChain cs 0).map (fun n => -(Int.ofNat n))
        else none
    else if isAsciiDigitChar c then (digitChain (c :: cs) 0).map Int.ofNat
    else none

end Petpeeve

namespace Petpeeve

/-! ## `petpeeve/links.py` -/

/-- `packaging.version` parse results are opaque to this core (the version
grammar is an external collaborator); a parsed version is modelled by its
source text.  `packaging_version.parse` never raises (unparseable text
becomes a `LegacyVersion`), so the model is total. -/
def Version := String
deriving instance Repr, DecidableEq for Version

def packagingVersionParse (s : String) : Version := s

/-- `packaging.specifiers.SpecifierSet` is likewise opaque; modelled by its
source text (`SpecifierSet('')` is the accept-anything default). -/
def SpecifierSet := String
deriving instance Repr, DecidableEq for SpecifierSet

/-- `SourceInformation` namedtuple. -/
structure SourceInformation where
  distribution_name : String
  version : Version
deriving Repr, DecidableEq

/-- `WheelInformation` namedtuple. -/
structure WheelInformation where
  distribution_name : String
  version : Version
  build_tag : Option Int
  language_implementation_tag : String
  abi_tag : String
  platform_tag : String
deriving Repr, DecidableEq

/-- Variant-specific parsed metadata (`link.info`). -/
inductive LinkInfo where
  | source (i : SourceInformation)
  | wheel (i : WheelInformation)
deriving Repr, DecidableEq

/-- A constructed `Link` (either `SourceDistributionLink` or
`WheelDistributionLink`, distinguished by `info`). -/
structure Link where
  url : String
  checksum : String
  file_stem : String
  extension : String
  python_specifier : SpecifierSet
  info : LinkInfo
deriving Repr, DecidableEq

/-- `Link.filename`. -/
def Link.filename (l : Link) : String :=
  chstr (l.file_stem.data ++ l.extension.data)

/-- `SourceDistributionLink.parse_for_info`:
`name, ver = self.file_stem.rsplit('-', 1)` — raises `ValueError` when the
stem contains no `-` (unpacking a 1-list into 2 names). -/
def sourceParseForInfo (stem : String) : Except PyError SourceInformation :=
  match pyRsplit1 stem '-' with
  | [name, ver] => .ok ⟨name, packagingVersionParse ver⟩
  | _ => .error (.valueError "not enough values to unpack (expected 2, got 1)")

/-- `WheelDistributionLink.parse_for_info`: split the stem on `-`; 6 fields
carry an integer build tag, 5 fields carry none; any other field count falls
through both branches and the subsequent read of the local `ver` raises
`UnboundLocalError`.  A non-integer build field raises `ValueError` from
`int()`. -/
def wheelParseForInfo (stem : String) : Except PyError WheelInformation :=
  match pySplit stem '-' with
  | [name, ver, build, impl, abi, plat] =>
    match pyInt build with
    | none => .error (.valueError (chstr ("invalid literal for int with base 10: ".data ++ build.data)))
    | some b => .ok ⟨name, packagingVersionParse ver, some b, impl, abi, plat⟩
  | [name, ver, impl, abi, plat] =>
    .ok ⟨name, packagingVersionParse ver, none, impl, abi, plat⟩
  | _ => .error (.unboundLocalError "ver")

/-- Artifact kind selected by `WANTED_EXTENSIONS`. -/
inductive LinkKind where
  | wheelKind
  | sourceKind
deriving Repr, DecidableEq

/-- `WANTED_EXTENSIONS`, in priority order. -/
def wantedExtensions : List (String × LinkKind) :=
  [(".whl", .wheelKind), (".tar.gz", .sourceKind),
   (".tar.bz2", .sourceKind), (".zip", .sourceKind)]

/-- `_select_link_klass` / `select_link_constructor`: find the first wanted
extension the filename ends with; otherwise raise `UnwantedLink`. -/
def selectLinkConstructor (filename : String) :
    Except PyError (LinkKind × String × String) :=
  match (wantedExtensions.find? fun p => pyEndsWith filename p.1) with
  | some (ext, kind) =>
    .ok (kind, chstr (dropRightChars ext.data.length filename.data), ext)
  | none => .error (.unwantedLink filename)

/-- Link construction (`Link.__init__` computing `self.info` via the
variant's `parse_for_info`). -/
def mkLink (kind : LinkKind) (url checksum stem ext : String)
    (pyspec : SpecifierSet) : Except PyError Link :=
  match kind with
  | .wheelKind =>
    (wheelParseForInfo stem).map fun i => ⟨url, checksum, stem, ext, pyspec, .wheel i⟩
  | .sourceKind =>
    (sourceParseForInfo stem).map fun i => ⟨url, checksum, stem, ext, pyspec, .source i⟩

/-- `check_download`'s checksum decomposition: `htype, hvalue =
self.checksum.split('=')` (exactly one `=` required). -/
def checksumParts (checksum : String) : Except PyError (String × String) :=
  match pySplit checksum '=' with
  | [a, b] => .ok (a, b)
  | _ => .error (.valueError "checksum unpack")

end Petpeeve

namespace Petpeeve

/-! ## `petpeeve/requirements.py` -/

/-- The opaque PEP 508 requirement, as produced by
`packaging.requirements.Requirement` (an external grammar per the spec).
Modelled by the name-and-specifier text together with the marker text: the
grammar splits the string at the `;` that introduces the environment
marker; `marker` is `none` when there is no marker. -/
structure BaseRequirement where
  body : String
  marker : Option String
deriving Repr, DecidableEq

/-- The opaque modern-grammar parse (`packaging.requirements.Requirement(s)`):
split at the first `;`; the part before (stripped) is the
name/extras/specifier body, the part after (stripped) is the marker text.
An absent or blank marker part yields `marker = none` (a requirement object
with `marker is None`). -/
def baseRequirementParse (s : String) : BaseRequirement :=
  match splitChars ';' s.data with
  | [] => ⟨chstr (stripChars s.data), none⟩
  | body :: rest =>
    if rest.isEmpty then ⟨chstr (stripChars body), none⟩
    else
      let markerText := stripChars (List.intercalate [';'] rest)
      if markerText.isEmpty then ⟨chstr (stripChars body), none⟩
      else ⟨chstr (stripChars body), some (chstr markerText)⟩

/-- Regex `.` (any character but newline). -/
def isDotChar (c : Char) : Bool := c ≠ '\n'

/-- Match the tail pattern of `EXTRA_RE`,
`extra\s*==\s*['"](?P<extra>.+?)['"]$`, against the suffix `cs` (which is
`s[i:]` for the candidate split position `i`).  Returns the `extra` group on
success.  The lazy `.+?` of the extra group together with the `$` anchor
forces the closing quote-class character to be the final character of the
string, so the group is everything between the opening quote and that final
character (nonempty, no newline). -/
def extraTailMatch (cs : List Char) : Option (List Char) :=
  let rec dropLit : List Char → List Char → Option (List Char)
    | [], rest => some rest
    | l :: ls, c :: rest => if c = l then dropLit ls rest else none
    | _ :: _, [] => none
  match dropLit "extra".data cs with
  | none => none
  | some afterExtra =>
    let afterWs1 := afterExtra.dropWhile isPySpace
    match dropLit "==".data afterWs1 with
    | none => none
    | some afterEq =>
      let afterWs2 := afterEq.dropWhile isPySpace
      match afterWs2 with
      | [] => none
      | q :: rest =>
        if q = '\'' || q = '"' then
          -- `(.+?)['"]$`: the closing quote must be the final character.
          match rest.reverse with
          | [] => none
          | qEnd :: revContent =>
            let content := revContent.reverse
            if (qEnd = '\'' || qEnd = '"') && !content.isEmpty
                && content.all isDotChar then
              some content
            else none
        else none

/-- `EXTRA_RE.match(s)` for
`^(?P<requirement>.+?)(?:extra\s*==\s*['"](?P<extra>.+?)['"])$`: leftmost
match with a lazy first group, i.e. the smallest split position `i ≥ 1`
(the group `.+?` is nonempty and free of newlines) whose suffix matches the
tail pattern.  Returns `(requirement_group, extra_group)`. -/
def extraREMatch (s : String) : Option (String × String) :=
  let cs := s.data
  let rec go (front : List Char) (rest : List Char) : Option (String × String) :=
    match rest with
    | [] => none
    | c :: rest2 =>
      if isDotChar c then
        let front2 := front ++ [c]
        match extraTailMatch rest2 with
        | some extra => some (chstr front2, chstr extra)
        | none => go front2 rest2
      else none
  go [] cs

/-- `Requirement.parse(s)` from `petpeeve/requirements.py`: parse the modern
grammar; without a marker return immediately with no extra.  Otherwise try
`EXTRA_RE` on the raw string; on a match, strip the matched requirement
group of trailing whitespace, a dangling `and`, and a dangling `;`, re-parse
it, and return the captured extra name.  (The `if not extra` branch of the
source is unreachable: the regex's extra group is nonempty by
construction.) -/
def requirementParse (s : String) : BaseRequirement × Option String :=
  let requirement := baseRequirementParse s
  match requirement.marker with
  | none => (requirement, none)
  | some _ =>
    match extraREMatch s with
    | none => (requirement, none)
    | some (reqGroup, extra) =>
      if extra.data.isEmpty then (requirement, none)
      else
        let s1 := rstripChars reqGroup.data
        let s2 := if endsWithChars "and".data s1
          then rstripChars (dropRightChars 3 s1) else s1
        let s3 := if endsWithChars ";".data s2
          then rstripChars (dropRightChars 1 s2) else s2
        (baseRequirementParse (chstr s3), some extra)

/-- `RequirementSpecification`: `base` is a Python `set` of requirements,
`extras` a mapping from extra name to a set, kept in dict insertion order.
`extrasIsDefaultMap` records whether `extras` is a
`collections.defaultdict(set)` (as built by `from_wheel`/`from_data`) or a
plain `dict` (as passed to `__init__` directly, e.g. by `empty()`): a plain
dict raises `KeyError` on a missing key, a defaultdict silently inserts an
empty set. -/
structure RequirementSpecification where
  base : Finset BaseRequirement
  extras : List (String × Finset BaseRequirement)
  extrasIsDefaultMap : Bool
deriving DecidableEq

/-- Association-list lookup (Python `d[k]` on a present key). -/
def assocFind (extras : List (String × Finset BaseRequirement)) (k : String) :
    Option (Finset BaseRequirement) :=
  (extras.find? fun p => p.1 = k).map Prod.snd

/-- Store `k ↦ v`, updating in place if present, else appending (Python dict
insertion-order semantics). -/
def assocStore (extras : List (String × Finset BaseRequirement)) (k : String)
    (v : Finset BaseRequirement) : List (String × Finset BaseRequirement) :=
  match extras with
  | [] => [(k, v)]
  | (k0, v0) :: rest =>
    if k0 = k then (k, v) :: rest else (k0, v0) :: assocStore rest k v

/-- `RequirementSpecification.empty()`: `cls([], {})` — a plain dict. -/
def RequirementSpecification.emptySpec : RequirementSpecification :=
  ⟨∅, [], false⟩

/-- `RequirementSpecification.from_data(requires_dist)`: parse each raw
string, route by its recovered extra (or `base` when none).  The `extras`
mapping is a `defaultdict(set)`. -/
def RequirementSpecification.from_data (requires_dist : List String) :
    RequirementSpecification :=
  let step := fun (acc : Finset BaseRequirement × List (String × Finset BaseRequirement))
      (s : String) =>
    let (base, extras) := acc
    let (requirement, extra) := requirementParse s
    match extra with
    | none => (insert requirement base, extras)
    | some e =>
      -- `extra_reqs = extras[e]` (defaultdict get-or-create), add, store back
      let extraReqs := (assocFind extras e).getD ∅
      (base, assocStore extras e (insert requirement extraReqs))
  let (base, extras) := requires_dist.foldl step (∅, [])
  ⟨base, extras, true⟩

/-- The warning text of `get_dependencies`'s unknown-extra diagnostic. -/
def unknownExtraWarning (extra : String) : String :=
  chstr ("dropping unknown extra ".data ++ extra.data)

/-- `RequirementSpecification.get_dependencies(extras)`: start from a copy
of `base`; an empty selection returns it immediately.  Otherwise each
selected name is looked up in `self.extras`: a present name's set is
unioned in; a missing name raises `KeyError` only for a plain dict (caught,
warned, skipped), while a defaultdict silently inserts an empty set for the
name — mutating the specification — and unions in that empty set.  Returns
`(result set, post-state specification, warnings emitted)`. -/
def RequirementSpecification.get_dependencies
    (spec : RequirementSpecification) (extras : List String) :
    Finset BaseRequirement × RequirementSpecification × List String :=
  let deps := spec.base
  if extras.isEmpty then (deps, spec, [])
  else
    let step := fun (acc : Finset BaseRequirement ×
        List (String × Finset BaseRequirement) × List String) (extra : String) =>
      let (deps, extrasMap, warns) := acc
      match assocFind extrasMap extra with
      | some extraDeps => (deps ∪ extraDeps, extrasMap, warns)
      | none =>
        if spec.extrasIsDefaultMap then
          -- defaultdict: `self.extras[extra]` inserts `extra ↦ set()`
          (deps ∪ (∅ : Finset BaseRequirement),
           assocStore extrasMap extra ∅, warns)
        else
          (deps, extrasMap, warns ++ [unknownExtraWarning extra])
    let (deps, extrasMap, warns) := extras.foldl step (deps, spec.extras, [])
    (deps, { spec with extras := extrasMap }, warns)

end Petpeeve

namespace Petpeeve

/-! ## `urllib.parse` primitives (`six.moves.urllib_parse`) -/

/-- `urllib.parse.SplitResult`: the 5 components of `urlsplit`, in `_fields`
order `(scheme, netloc, path, query, fragment)`. -/
structure SplitResult where
  scheme : String
  netloc : String
  path : String
  query : String
  fragment : String
deriving Repr, DecidableEq

/-- Valid non-first scheme characters (letters, digits, `+`, `-`, `.`). -/
def isSchemeChar (c : Char) : Bool :=
  isAsciiAlphaChar c || isAsciiDigitChar c || c = '+' || c = '-' || c = '.'

/-- ASCII lowercase. -/
def lowerChar (c : Char) : Char :=
  if 'A' ≤ c && c ≤ 'Z' then Char.ofNat (c.toNat + 32) else c

/-- Split off a leading `scheme:` when the text before the first `:` is a
valid scheme (a letter followed by scheme characters); the scheme is
lowercased.  Returns `(scheme, rest)`. -/
def splitScheme (cs : List Char) : List Char × List Char :=
  let beforeColon := cs.takeWhile (· ≠ ':')
  if containsChar ':' cs && !beforeColon.isEmpty then
    match beforeColon with
    | [] => ([], cs)
    | c0 :: rest0 =>
      if isAsciiAlphaChar c0 && rest0.all isSchemeChar then
        (beforeColon.map lowerChar, cs.drop (beforeColon.length + 1))
      else ([], cs)
  else ([], cs)

/-- A character that ends the netloc component (`/`, `?` or `#`). -/
def isNetlocEnd (c : Char) : Bool :=
  c = '/' || c = '?' || c = '#'

/-- `urllib.parse.urlsplit(url)`: split a URL string into
`(scheme, netloc, path, query, fragment)`.  Modelled after CPython:
detect and lowercase a leading scheme, take the netloc after `//` up to the
first `/`, `?` or `#`, then split off the fragment at the first `#` and the
query at the first `?`. -/
def urlsplit (url : String) : SplitResult :=
  let (scheme, rest) := splitScheme url.data
  let (netloc, rest) :=
    match rest with
    | '/' :: '/' :: tl => (tl.takeWhile (fun c => !isNetlocEnd c),
                           tl.dropWhile (fun c => !isNetlocEnd c))
    | _ => ([], rest)
  let (rest, fragment) :=
    if containsChar '#' rest then
      (rest.takeWhile (· ≠ '#'), (rest.dropWhile (· ≠ '#')).drop 1)
    else (rest, [])
  let (path, query) :=
    if containsChar '?' rest then
      (rest.takeWhile (· ≠ '?'), (rest.dropWhile (· ≠ '?')).drop 1)
    else (rest, [])
  ⟨chstr scheme, chstr netloc, chstr path, chstr query, chstr fragment⟩

/-- `urllib.parse.urlunsplit(components)`, after CPython: prepend
`//netloc` when a netloc is present (forcing a `/` before a relative path),
then `scheme:`, then append `?query` and `#fragment` when nonempty. -/
def urlunsplit (p : SplitResult) : String :=
  let url := p.path.data
  let url :=
    if !p.netloc.data.isEmpty || (url.take 2 = ['/', '/']) then
      let url1 := if !url.isEmpty && url.headD ' ' ≠ '/' then '/' :: url else url
      '/' :: '/' :: p.netloc.data ++ url1
    else url
  let url := if p.scheme.data.isEmpty then url else p.scheme.data ++ ':' :: url
  let url := if p.query.data.isEmpty then url else url ++ '?' :: p.query.data
  let url := if p.fragment.data.isEmpty then url else url ++ '#' :: p.fragment.data
  chstr url

/-- `posixpath.join(a, b)` for two components. -/
def posixpathJoin (a b : String) : String :=
  if b.data.headD ' ' = '/' then b
  else if a.data.isEmpty || a.data.getLast? = some '/' then chstr (a.data ++ b.data)
  else chstr (a.data ++ '/' :: b.data)

end Petpeeve

namespace Petpeeve

/-! ## `petpeeve/indexes/simpleapi/__init__.py` -/

/-- The `_replace(**replacements)` step of `SimplePageParser.handle_starttag`:
a field of the href's split result replaces the base's when the part is
truthy (nonempty) or the field is `fragment` (the fragment — already
stripped to the empty string — is always replaced). -/
def overrideBaseParts (base href : SplitResult) : SplitResult where
  scheme := if href.scheme.data.isEmpty then base.scheme else href.scheme
  netloc := if href.netloc.data.isEmpty then base.netloc else href.netloc
  path := if href.path.data.isEmpty then base.path else href.path
  query := if href.query.data.isEmpty then base.query else href.query
  fragment := href.fragment

/-- One start-tag event delivered by the HTML tokenizer
(`six.moves.html_parser.HTMLParser`, an external collaborator): the tag name
and its attribute/value pairs in source order. -/
structure StartTagEvent where
  tag : String
  attrs : List (String × String)
deriving Repr, DecidableEq

/-- `SimplePageParser.handle_starttag` (`petpeeve/indexes/simpleapi`):
ignore non-anchor tags; scan the attributes, url-splitting the `href` value
(keeping its fragment as the checksum, then clearing it) and reading
`data-requires-python` as the python specifier; skip anchors without an
`href`; complete the split href against the page's base URL parts by
truthy-field replacement; classify the resolved URL's final path segment,
silently skipping `UnwantedLink`; finally construct the link — whose
`parse_for_info` runs outside the `try` block, so its exceptions propagate
out of the page parse. -/
def handleStarttag (baseParts : SplitResult) (links : List Link)
    (ev : StartTagEvent) : Except PyError (List Link) :=
  if ev.tag ≠ "a" then .ok links
  else
    let scan := fun (acc : Option (SplitResult × String) × SpecifierSet)
        (attr : String × String) =>
      if attr.1 = "href" then
        let urlParts := urlsplit attr.2
        let checksum := urlParts.fragment
        (some ({ urlParts with fragment := "" }, checksum), acc.2)
      else if attr.1 = "data-requires-python" then
        (acc.1, attr.2)
      else acc
    match ev.attrs.foldl scan (none, ("" : SpecifierSet)) with
    | (none, _) => .ok links
    | (some (urlParts, checksum), pyspec) =>
      let url := urlunsplit (overrideBaseParts baseParts urlParts)
      match selectLinkConstructor (lastSlashSegment url) with
      | .error _ => .ok links     -- `except UnwantedLink: return`
      | .ok (kind, stem, ext) =>
        match mkLink kind url checksum stem ext pyspec with
        | .error e => .error e    -- outside the try: propagates
        | .ok link => .ok (links ++ [link])

/-- `SimplePageParser` fed a whole page: fold `handle_starttag` over the
tokenizer's start-tag events, accumulating `self.links` in page order. -/
def parsePage (base_url : String) (events : List StartTagEvent) :
    Except PyError (List Link) :=
  let baseParts := urlsplit base_url
  events.foldlM (handleStarttag baseParts) []

/-- The version recorded in a link's parsed info (`link.info.version`,
present on both variants). -/
def LinkInfo.version : LinkInfo → Version
  | .source i => i.version
  | .wheel i => i.version

/-- The supported-tag set of the target environment
(`wheel.pep425tags.get_supported()`, an external capability): a list of
`(implementation, abi, platform)` triples. -/
def SupportedTags := List (String × String × String)

/-- `WheelDistributionLink.is_binary_compatible`: exact membership of the
wheel's tag triple in the supported set. -/
def isBinaryCompatible (supported : SupportedTags) (i : WheelInformation) : Bool :=
  (supported : List (String × String × String)).contains
    (i.language_implementation_tag, i.abi_tag, i.platform_tag)

/-- `_link_sort_key(link)`: a source link has no `is_binary_compatible`
attribute (`AttributeError` → 0); a wheel link keys 1 when binary
compatible and -1 otherwise. -/
def linkSortKey (supported : SupportedTags) (link : Link) : Int :=
  match link.info with
  | .source _ => 0
  | .wheel i => if isBinaryCompatible supported i then 1 else -1

/-- `IndexServer.get_links(candidate)`: filter the package page's links to
those whose parsed version equals the candidate's, then `sorted(...)` by
`_link_sort_key` (Python's `sorted` is an ascending stable sort, modelled by
insertion sort on a non-strict key comparison). -/
def indexGetLinks (supported : SupportedTags) (packageLinks : List Link)
    (candidateVersion : Version) : List Link :=
  (packageLinks.filter fun l => l.info.version = candidateVersion).insertionSort
    (fun a b => linkSortKey supported a ≤ linkSortKey supported b)

/-- A built local wheel artifact (`distlib.wheel.Wheel(path)`); always a
truthy Python object. -/
structure WheelArtifact where
  path : String
deriving Repr, DecidableEq

/-- The external artifact store/builder (`petpeeve.wheels`):
`get_built_wheel_path` builds a wheel from an sdist link,
`get_wheel_path` looks up / downloads a wheel for a wheel link under the
given offline policy; both return a falsy value when nothing is found. -/
structure WheelStore where
  get_built_wheel_path : Link → Option String
  get_wheel_path : Link → Bool → Option String

/-- `Link.as_wheel(offline)`:
for an sdist, `offline` raises `WheelNotFoundError` immediately, otherwise a
falsy build result raises `WheelNotFoundError`; for a wheel link, a falsy
lookup result raises `WheelNotFoundError`.  Never returns a falsy value. -/
def linkAsWheel (store : WheelStore) (link : Link) (offline : Bool) :
    Except PyError WheelArtifact :=
  match link.info with
  | .source _ =>
    if offline then .error (.wheelNotFound link.filename)
    else
      match store.get_built_wheel_path link with
      | none => .error (.wheelNotFound link.filename)
      | some p => .ok ⟨p⟩
  | .wheel _ =>
    match store.get_wheel_path link offline with
    | none => .error (.wheelNotFound link.filename)
    | some p => .ok ⟨p⟩

/-- Possible results of `IndexServer.get_dependencies`: either a dependency
set built from a wheel (`DependencySet.from_wheel(wheel)`), or the bare
empty list `[]` returned after the loop. -/
inductive GetDependenciesResult (δ : Type) where
  | depsFromWheel (d : δ)
  | emptyList
deriving Repr, DecidableEq

/-- The warning emitted when dependency discovery exhausts the links. -/
def noDependenciesWarning : String :=
  "failed to find dependencies with the Simple API"

/-- `IndexServer.get_dependencies(candidate, offline)`: iterate
`self.get_links(candidate)`; each iteration calls `link.as_wheel(offline)`
— whose `WheelNotFoundError` is not caught and so propagates — and, since a
`Wheel` object is always truthy, immediately returns
`DependencySet.from_wheel(wheel)` on success (the `if not wheel: continue`
branch is unreachable).  Only when the candidate link list is empty does
the loop finish, warn, and return `[]`.  `fromWheel` abstracts the external
`DependencySet.from_wheel` metadata reader.  Also returns the warnings
emitted. -/
def indexGetDependencies {δ : Type} (store : WheelStore)
    (fromWheel : WheelArtifact → δ) (supported : SupportedTags)
    (packageLinks : List Link) (candidateVersion : Version) (offline : Bool) :
    Except PyError (GetDependenciesResult δ × List String) :=
  let rec go : List Link → Except PyError (GetDependenciesResult δ × List String)
    | [] => .ok (.emptyList, [noDependenciesWarning])
    | link :: rest =>
      match linkAsWheel store link offline with
      | .error e => .error e
      | .ok wheel =>
        -- `if not wheel: continue` is dead: a Wheel instance is truthy,
        -- so `rest` is never consulted after a successful materialization.
        let _ := rest
        .ok (.depsFromWheel (fromWheel wheel), [])
  go (indexGetLinks supported packageLinks candidateVersion)

end Petpeeve

namespace Petpeeve

/-! ## `IndexServer._get_package_links` with its `lru_cache` -/

/-- A transport response (`requests.get`), restricted to the fields the code
reads; the body is modelled at the granularity the HTML tokenizer delivers
it to `SimplePageParser.feed`. -/
structure HttpResponse where
  status_code : Nat
  reason : String
  text : List StartTagEvent

/-- `response.ok` as defined by `requests`: status below 400. -/
def HttpResponse.ok (r : HttpResponse) : Bool :=
  r.status_code < 400

/-- The page cache of the `lru_cache` decorator on `_get_package_links`:
`package → links`, most recently used first, capacity
`PYPI_PAGE_CACHE_SIZE = 64`. -/
def pypiPageCacheSize : Nat := 64

structure PageCache where
  entries : List (String × List Link)

/-- Cache lookup. -/
def PageCache.lookup (c : PageCache) (package : String) : Option (List Link) :=
  (c.entries.find? fun p => p.1 = package).map Prod.snd

/-- A cache hit moves the entry to the most-recently-used position. -/
def PageCache.touch (c : PageCache) (package : String) : PageCache :=
  match c.entries.find? fun p => p.1 = package with
  | none => c
  | some e => ⟨e :: (c.entries.filter fun p => p.1 ≠ package)⟩

/-- Insertion on a miss: new entry becomes most recent; evict the least
recently used entries beyond the capacity (the new entry plus the first
`pypiPageCacheSize - 1` old ones are kept). -/
def PageCache.insert (c : PageCache) (package : String) (links : List Link) :
    PageCache :=
  ⟨(package, links) :: c.entries.take (pypiPageCacheSize - 1)⟩

/-- `IndexServer._get_package_links(package)` under its `lru_cache`:
a cached package returns its stored links without touching the transport;
otherwise fetch `posixpath.join(base_url, package)` once — status 404
raises `PackageNotFound(package)`, any other non-ok status raises
`APIError(response.reason)`, and a raising call caches nothing — and on
success parse the body with `SimplePageParser(base_url=self.base_url)`
(whose own link-construction errors also propagate uncached) and cache the
parsed list.  Returns `(result, post-state cache, urls fetched)`; the
fetched-url trace witnesses that exactly one transport request is issued
per miss and none per hit. -/
def getPackageLinks (fetch : String → HttpResponse) (base_url : String)
    (cache : PageCache) (package : String) :
    Except PyError (List Link) × PageCache × List String :=
  match cache.lookup package with
  | some links => (.ok links, cache.touch package, [])
  | none =>
    let url := posixpathJoin base_url package
    let response := fetch url
    if response.status_code = 404 then
      (.error (.packageNotFound package), cache, [url])
    else if !response.ok then
      (.error (.apiError response.reason), cache, [url])
    else
      match parsePage base_url response.text with
      | .error e => (.error e, cache, [url])
      | .ok links => (.ok links, cache.insert package links, [url])

end Petpeeve

namespace Petpeeve

/-! ## `parse_link` (`petpeeve/links.py`) and concrete inputs -/

/-- `parse_link(url, python_specifier)` on an already-split URL (the
function accepts either a string or a `SplitResult`; a string is first
passed through `urlsplit`, see `parseLinkStr`): take the fragment as the
checksum, clear it, classify the path's last segment, and construct the
link over the unsplit URL. -/
def parseLink (parts : SplitResult) (pyspec : SpecifierSet) :
    Except PyError Link :=
  let checksum := parts.fragment
  let parts2 := { parts with fragment := "" }
  match selectLinkConstructor (lastSlashSegment parts2.path) with
  | .error e => .error e
  | .ok (kind, stem, ext) =>
    mkLink kind (urlunsplit parts2) checksum stem ext pyspec

/-- `parse_link` on a string URL. -/
def parseLinkStr (url : String) (pyspec : SpecifierSet) : Except PyError Link :=
  parseLink (urlsplit url) pyspec

/-- Modelled from the spec: the "standard URL-joining rules" the spec's
§4.2 prescribes (RFC 3986 reference resolution — a relative reference is
completed using the base's scheme, host and path, merging a relative path
onto the base path up to its last slash).  This is not code of the
repository; it exists solely to compare the repository's resolution
against the spec's words.  Dot-segment removal is omitted (the compared
inputs contain no dot segments). -/
def specUrljoin (base ref : String) : String :=
  let b := urlsplit base
  let r := urlsplit ref
  if !r.scheme.data.isEmpty then ref
  else if !r.netloc.data.isEmpty then
    urlunsplit { r with scheme := b.scheme }
  else if r.path.data.isEmpty then
    urlunsplit { b with
      query := if r.query.data.isEmpty then b.query else r.query,
      fragment := r.fragment }
  else if r.path.data.headD ' ' = '/' then
    urlunsplit { b with path := r.path, query := r.query, fragment := r.fragment }
  else
    let merged := (b.path.data.reverse.dropWhile (· ≠ '/')).reverse ++ r.path.data
    urlunsplit { b with path := chstr merged, query := r.query, fragment := r.fragment }

/-- The C5 scenario's page: one anchor with a relative wheel href carrying a
checksum fragment. -/
def scenarioBaseUrl : String := "https://idx/simple/pkg/"

def scenarioHref : String := "pkg-1.0-py3-none-any.whl#sha256=abc"

def scenarioEvents : List StartTagEvent :=
  [⟨"a", [("href", scenarioHref)]⟩]

/-- The link the parser produces for the C5 scenario. -/
def scenarioLink : Link where
  url := "https://idx/pkg-1.0-py3-none-any.whl"
  checksum := "sha256=abc"
  file_stem := "pkg-1.0-py3-none-any"
  extension := ".whl"
  python_specifier := ("" : SpecifierSet)
  info := .wheel ⟨"pkg", "1.0", none, "py3", "none", "any"⟩

/-- An sdist link for the C1 candidate (version 1.0). -/
def sdistLinkC1 : Link where
  url := "https://idx/pkg-1.0.tar.gz"
  checksum := ""
  file_stem := "pkg-1.0"
  extension := ".tar.gz"
  python_specifier := ("" : SpecifierSet)
  info := .source ⟨"pkg", "1.0"⟩

/-- A binary-compatible wheel link for the C1 candidate (version 1.0). -/
def wheelLinkC1 : Link where
  url := "https://idx/pkg-1.0-py3-none-any.whl"
  checksum := ""
  file_stem := "pkg-1.0-py3-none-any"
  extension := ".whl"
  python_specifier := ("" : SpecifierSet)
  info := .wheel ⟨"pkg", "1.0", none, "py3", "none", "any"⟩

/-- A supported-tag environment under which `wheelLinkC1` is binary
compatible. -/
def supportedC1 : SupportedTags := [("py3", "none", "any")]

/-- An artifact store holding the wheel in its local cache (available even
offline) but unable to build the sdist. -/
def storeC1 : WheelStore where
  get_built_wheel_path := fun _ => none
  get_wheel_path := fun _ _ => some "/wheels/pkg-1.0-py3-none-any.whl"

/-- A transport whose every response is HTTP 404. -/
def fetch404 : String → HttpResponse :=
  fun _ => ⟨404, "Not Found", []⟩

/-- The empty page cache. -/
def emptyPageCache : PageCache := ⟨[]⟩

/-- The C4/C8 input specification built by `from_data` (its `extras`
mapping is a `defaultdict`). -/
def specC8 : RequirementSpecification :=
  RequirementSpecification.from_data ["dep1", "dep2; extra == 'ex'"]

end Petpeeve

section Scratch

open Petpeeve

example : pySplit "a-b--c" '-' = ["a", "b", "", "c"] := by decide
example : pyRsplit1 "pkg-1.0" '-' = ["pkg", "1.0"] := by decide
example : pyRsplit1 "pkg" '-' = ["pkg"] := by decide
example : pyEndsWith "foo.whl" ".whl" = true := by decide
example : pyInt "12" = some 12 := by decide
example : pyInt " +1_2 " = some 12 := by decide
example : pyInt "x2" = none := by decide
example : selectLinkConstructor "pkg-1.0.tar.gz" =
    .ok (.sourceKind, "pkg-1.0", ".tar.gz") := by decide
example : wheelParseForInfo "pkg-1.0-py3-none-any" =
    .ok ⟨"pkg", "1.0", none, "py3", "none", "any"⟩ := by decide
example : wheelParseForInfo "pkg-1.0-py3-none" = .error (.unboundLocalError "ver") := by decide

example : urlsplit "https://idx/simple/pkg/" =
    ⟨"https", "idx", "/simple/pkg/", "", ""⟩ := by decide

example : urlsplit "pkg-1.0-py3-none-any.whl#sha256=abc" =
    ⟨"", "", "pkg-1.0-py3-none-any.whl", "", "sha256=abc"⟩ := by decide

example : urlunsplit ⟨"https", "idx", "pkg-1.0-py3-none-any.whl", "", ""⟩ =
    "https://idx/pkg-1.0-py3-none-any.whl" := by decide

example : requirementParse "foo>=1" = (⟨"foo>=1", none⟩, none) := by decide

example : requirementParse "foo (>=1,<2); extra == 'bar'" =
    (⟨"foo (>=1,<2)", none⟩, some "bar") := by decide

example :
    requirementParse "PySocks (!=1.5.7,>=1.5.6); extra == 'socks'" =
    (⟨"PySocks (!=1.5.7,>=1.5.6)", none⟩, some "socks") := by decide

example : posixpathJoin "https://idx/simple" "missing-pkg" =
    "https://idx/simple/missing-pkg" := by decide

example :
    parsePage "https://idx/simple/pkg/"
      [⟨"a", [("href", "pkg-1.0-py3-none-any.whl#sha256=abc")]⟩] =
    .ok [{ url := "https://idx/pkg-1.0-py3-none-any.whl",
           checksum := "sha256=abc",
           file_stem := "pkg-1.0-py3-none-any", extension := ".whl",
           python_specifier := ("" : SpecifierSet),
           info := .wheel ⟨"pkg", "1.0", none, "py3", "none", "any"⟩ }] := by decide

end Scratch

namespace Petpeeve

/-! ## Supporting lemmas -/

theorem splitChars_ne_nil (sep : Char) (cs : List Char) :
    splitChars sep cs ≠ [] := by
  induction cs with
  | nil => simp [splitChars]
  | cons c cs ih =>
    simp only [splitChars]
    split
    · simp
    · split
      · simp
      · simp

/-- No part produced by `splitChars` contains the separator. -/
theorem not_mem_of_mem_splitChars (sep : Char) (cs : List Char) :
    ∀ part ∈ splitChars sep cs, sep ∉ part := by
  induction cs with
  | nil =>
    intro part hp
    simp [splitChars] at hp
    simp [hp]
  | cons c cs ih =>
    intro part hp
    simp only [splitChars] at hp
    by_cases hcs : c = sep
    · rw [if_pos hcs] at hp
      rcases List.mem_cons.mp hp with h | h
      · simp [h]
      · exact ih part h
    · rw [if_neg hcs] at hp
      cases hrest : splitChars sep cs with
      | nil => exact absurd hrest (splitChars_ne_nil sep cs)
      | cons r rs =>
        rw [hrest] at hp
        simp only [] at hp
        rcases List.mem_cons.mp hp with h | h
        · subst h
          intro hmem
          rcases List.mem_cons.mp hmem with h1 | h1
          · exact hcs h1.symm
          · exact ih r (hrest ▸ List.mem_cons_self r rs) h1
        · exact ih part (hrest ▸ List.mem_cons.mpr (Or.inr h))

/-- No element of `pySplit` contains the separator. -/
theorem sep_not_mem_of_mem_pySplit (s : String) (sep : Char) :
    ∀ part ∈ pySplit s sep, sep ∉ part.data := by
  intro part hp
  rcases List.mem_map.mp hp with ⟨l, hl, hchstr⟩
  have hdata : part.data = l := by rw [← hchstr]; rfl
  rw [hdata]
  exact not_mem_of_mem_splitChars sep s.data l hl

theorem mem_of_mem_rstripChars {c : Char} {cs : List Char}
    (h : c ∈ rstripChars cs) : c ∈ cs := by
  unfold rstripChars at h
  have h1 : c ∈ cs.reverse.dropWhile isPySpace := List.mem_reverse.mp h
  have h2 : c ∈ cs.reverse := (List.dropWhile_sublist _).subset h1
  exact List.mem_reverse.mp h2

theorem mem_of_mem_stripChars {c : Char} {cs : List Char}
    (h : c ∈ stripChars cs) : c ∈ cs := by
  unfold stripChars at h
  have h1 : c ∈ lstripChars cs := mem_of_mem_rstripChars h
  unfold lstripChars at h1
  exact (List.dropWhile_sublist _).subset h1

/-- `int()` applied to text free of `-` cannot yield a negative value. -/
theorem pyInt_nonneg (s : String) (b : Int) (hd : '-' ∉ s.data)
    (h : pyInt s = some b) : 0 ≤ b := by
  cases hstrip : stripChars s.data with
  | nil =>
    simp only [pyInt, hstrip] at h
    exact absurd h (by simp)
  | cons c0 cs0 =>
    simp only [pyInt, hstrip] at h
    split at h
    · -- `+` sign: a non-negative `Int.ofNat`
      split at h
      · exact absurd h (by simp)
      · split at h
        · rcases Option.map_eq_some'.mp h with ⟨n, _, hn⟩
          rw [← hn]
          exact Int.ofNat_nonneg n
        · exact absurd h (by simp)
    · split at h
      · -- `-` sign: impossible, the text contains no `-`
        next hminus =>
          exfalso
          apply hd
          apply @mem_of_mem_stripChars '-' s.data
          rw [hstrip]
          exact hminus ▸ List.mem_cons_self c0 cs0
      · split at h
        · rcases Option.map_eq_some'.mp h with ⟨n, _, hn⟩
          rw [← hn]
          exact Int.ofNat_nonneg n
        · exact absurd h (by simp)

/-- A successful `wheelParseForInfo` with a present build tag yields a
non-negative value. -/
theorem wheelParseForInfo_build_nonneg (stem : String) (i : WheelInformation)
    (h : wheelParseForInfo stem = .ok i) (b : Int)
    (hb : i.build_tag = some b) : 0 ≤ b := by
  unfold wheelParseForInfo at h
  split at h
  case h_1 name ver build impl abi plat heq =>
    cases hint : pyInt build with
    | none => rw [hint] at h; exact absurd h (by simp)
    | some k =>
      rw [hint] at h
      have hik : i = ⟨name, packagingVersionParse ver, some k, impl, abi, plat⟩ := by
        cases h
        rfl
      rw [hik] at hb
      have hkb : k = b := by
        simpa using hb
      have hnd : '-' ∉ build.data := by
        apply sep_not_mem_of_mem_pySplit stem '-'
        rw [heq]
        simp
      have := pyInt_nonneg build k hnd hint
      omega
  case h_2 name ver impl abi plat heq =>
    have hik : i = ⟨name, packagingVersionParse ver, none, impl, abi, plat⟩ := by
      cases h
      rfl
    rw [hik] at hb
    exact absurd hb (by simp)
  case h_3 => exact absurd h (by simp)

/-- Shape of a successful wheel parse by field count: 6 fields carry the
third field's `int()` value as the build tag, 5 fields carry none. -/
theorem wheelParseForInfo_fields (stem : String) (i : WheelInformation)
    (h : wheelParseForInfo stem = .ok i) :
    ((pySplit stem '-').length = 6 →
      ∃ b, 0 ≤ b ∧ i.build_tag = some b ∧
        pyInt ((pySplit stem '-').getD 2 "") = some b)
    ∧ ((pySplit stem '-').length = 5 → i.build_tag = none) := by
  have hnn := wheelParseForInfo_build_nonneg stem i h
  unfold wheelParseForInfo at h
  split at h
  case h_1 name ver build impl abi plat heq =>
    cases hint : pyInt build with
    | none => rw [hint] at h; exact absurd h (by simp)
    | some k =>
      rw [hint] at h
      have hik : i = ⟨name, packagingVersionParse ver, some k, impl, abi, plat⟩ := by
        cases h
        rfl
      constructor
      · intro _
        refine ⟨k, hnn k (by rw [hik]), by rw [hik], ?_⟩
        rw [heq]
        simpa using hint
      · intro hlen
        rw [heq] at hlen
        simp at hlen
  case h_2 name ver impl abi plat heq =>
    have hik : i = ⟨name, packagingVersionParse ver, none, impl, abi, plat⟩ := by
      cases h
      rfl
    constructor
    · intro hlen
      rw [heq] at hlen
      simp at hlen
    · intro _
      rw [hik]
  case h_3 => exact absurd h (by simp)

/-- A successfully constructed link carries the url and checksum it was
given. -/
theorem mkLink_ok_fields (kind : LinkKind) (u c stem ext : String)
    (p : SpecifierSet) (l : Link) (h : mkLink kind u c stem ext p = .ok l) :
    l.url = u ∧ l.checksum = c := by
  cases kind with
  | wheelKind =>
    unfold mkLink at h
    cases hw : wheelParseForInfo stem with
    | error e => rw [hw] at h; exact absurd h (by simp [Except.map])
    | ok i =>
      rw [hw] at h
      simp only [Except.map] at h
      cases h
      exact ⟨rfl, rfl⟩
  | sourceKind =>
    unfold mkLink at h
    cases hw : sourceParseForInfo stem with
    | error e => rw [hw] at h; exact absurd h (by simp [Except.map])
    | ok i =>
      rw [hw] at h
      simp only [Except.map] at h
      cases h
      exact ⟨rfl, rfl⟩

/-- The sort key never exceeds 1. -/
theorem linkSortKey_le_one (supported : SupportedTags) (link : Link) :
    linkSortKey supported link ≤ 1 := by
  cases hinfo : link.info with
  | source i => simp only [linkSortKey, hinfo]; decide
  | wheel i =>
    simp only [linkSortKey, hinfo]
    split
    · decide
    · decide

/-- Looking up the freshly inserted package in the page cache finds its
links. -/
theorem PageCache.lookup_insert (c : PageCache) (package : String)
    (links : List Link) :
    (c.insert package links).lookup package = some links := by
  unfold PageCache.insert PageCache.lookup
  simp

end Petpeeve

namespace Petpeeve

/-! ## Claim theorems -/

/-- C1: the claim says `IndexServer.get_dependencies(candidate, offline)`
falls back to the next candidate link when one yields no artifact and, when
no link yields one, returns an empty specification with a diagnostic.  The
code instead lets `as_wheel`'s `WheelNotFoundError` propagate: with an
sdist link first (which offline mode can never materialize) and a cached,
binary-compatible wheel link second, the call raises instead of falling
back to the wheel; the warn-and-return path is reached only when the
candidate link list is empty, and then returns a bare empty list. -/
theorem C1_get_dependencies_no_fallback :
    indexGetLinks supportedC1 [sdistLinkC1, wheelLinkC1] "1.0"
      = [sdistLinkC1, wheelLinkC1]
  ∧ linkAsWheel storeC1 wheelLinkC1 true =
      .ok ⟨"/wheels/pkg-1.0-py3-none-any.whl"⟩
  ∧ indexGetDependencies storeC1 (fun w => w) supportedC1
      [sdistLinkC1, wheelLinkC1] "1.0" true
      = .error (.wheelNotFound "pkg-1.0.tar.gz")
  ∧ indexGetDependencies storeC1 (fun w => w) supportedC1
      ([] : List Link) "1.0" true
      = .ok (.emptyList, [noDependenciesWarning]) :=
  ⟨by decide, by decide, by decide, by decide⟩

/-- C2: wheel-stem parsing: with 6 dash-separated fields the build tag is
the third field's `int()` value, necessarily non-negative; with 5 fields it
is absent.  But any other field count does not produce the claimed typed
malformed-filename rejection: both 5/6 branches are skipped and the read of
the never-assigned local `ver` crashes with `UnboundLocalError`. -/
theorem C2_wheel_stem_field_counts :
    (∀ stem i, wheelParseForInfo stem = .ok i →
      (((pySplit stem '-').length = 6 →
        ∃ b, 0 ≤ b ∧ i.build_tag = some b ∧
          pyInt ((pySplit stem '-').getD 2 "") = some b)
      ∧ ((pySplit stem '-').length = 5 → i.build_tag = none)))
  ∧ wheelParseForInfo "p-1.0-3-py3-none-any" =
      .ok ⟨"p", "1.0", some 3, "py3", "none", "any"⟩
  ∧ wheelParseForInfo "p-1.0-py3-none-any" =
      .ok ⟨"p", "1.0", none, "py3", "none", "any"⟩
  ∧ wheelParseForInfo "foo-1.0-py3-none" = .error (.unboundLocalError "ver") :=
  ⟨fun stem i h => wheelParseForInfo_fields stem i h,
   by decide, by decide, by decide⟩

/-- C2 witness: the universally quantified part of
`C2_wheel_stem_field_counts` applied at a concrete 6-field stem. -/
theorem C2_wheel_stem_field_counts_witness :
    wheelParseForInfo "p-1.0-3-py3-none-any" =
      .ok ⟨"p", "1.0", some 3, "py3", "none", "any"⟩
  ∧ (∃ b, 0 ≤ b ∧
      (WheelInformation.mk "p" "1.0" (some 3) "py3" "none" "any").build_tag
        = some b ∧
      pyInt ((pySplit "p-1.0-3-py3-none-any" '-').getD 2 "") = some b) :=
  ⟨by decide,
   (C2_wheel_stem_field_counts.1 "p-1.0-3-py3-none-any"
      ⟨"p", "1.0", some 3, "py3", "none", "any"⟩ (by decide)).1 (by decide)⟩

/-- C3: `parse_link` is claimed total over extension-recognized inputs with
only typed rejections.  A no-dash source-archive stem and a non-integer
wheel build field do land in the `ValueError` filtering channel, but a
wheel stem with 4 dash-separated fields crashes with an untyped
`UnboundLocalError` — `parse_link` is not total over recognized
extensions. -/
theorem C3_parse_link_totality :
    parseLinkStr "https://idx/foo-1.0-py3-none.whl" ("" : SpecifierSet) =
      .error (.unboundLocalError "ver")
  ∧ parseLinkStr "https://idx/foo.zip" ("" : SpecifierSet) =
      .error (.valueError "not enough values to unpack (expected 2, got 1)")
  ∧ parseLinkStr "https://idx/p-1.0-bx-py3-none-any.whl" ("" : SpecifierSet) =
      .error (.valueError "invalid literal for int with base 10: bx")
  ∧ parseLinkStr "https://idx/ok-1.0.tar.gz" ("" : SpecifierSet) =
      .ok ⟨"https://idx/ok-1.0.tar.gz", "", "ok-1.0", ".tar.gz",
           ("" : SpecifierSet), .source ⟨"ok", "1.0"⟩⟩ :=
  ⟨by decide, by decide, by decide, by decide⟩

/-- C4: `get_dependencies` is claimed to be a pure read leaving the extras
map's key set unchanged even for unknown extras.  For a specification built
by `from_data` (whose `extras` is a `defaultdict(set)`), looking up the
unknown extra `"x"` inserts the key `"x"` with an empty set into the map:
the key set changes from `∅` to `{"x"}`, while the returned set still
equals `base`. -/
theorem C4_get_dependencies_mutates_extras :
    (RequirementSpecification.from_data []).extras = []
  ∧ (RequirementSpecification.from_data []).extrasIsDefaultMap = true
  ∧ ((RequirementSpecification.from_data []).get_dependencies ["x"]).2.1.extras
      = [("x", (∅ : Finset BaseRequirement))]
  ∧ ((RequirementSpecification.from_data []).get_dependencies ["x"]).1
      = (RequirementSpecification.from_data []).base :=
  ⟨by decide, by decide, by decide, by decide⟩

/-- C6: `Requirement.parse` returns no extra whenever the modern parse has
no marker; on a marker-bearing string with a trailing `extra == '<name>'`
clause it strips the clause (and a dangling `and`/`;`), re-parses, and
returns the extra, as the concrete examples show. -/
theorem C6_requirement_parse_legacy_extra :
    (∀ s, (baseRequirementParse s).marker = none →
      requirementParse s = (baseRequirementParse s, none))
  ∧ requirementParse "foo (>=1,<2); extra == 'bar'" =
      (baseRequirementParse "foo (>=1,<2)", some "bar")
  ∧ (baseRequirementParse "foo (>=1,<2)").marker = none
  ∧ requirementParse "foo>=1" = (baseRequirementParse "foo>=1", none)
  ∧ (baseRequirementParse "foo>=1").marker = none :=
  ⟨fun s h => by simp [requirementParse, h],
   by decide, by decide, by decide, by decide⟩

/-- C6 witness: the universally quantified part of
`C6_requirement_parse_legacy_extra` applied at a marker-free input. -/
theorem C6_requirement_parse_legacy_extra_witness :
    (baseRequirementParse "requests").marker = none
  ∧ requirementParse "requests" = (baseRequirementParse "requests", none) :=
  ⟨by decide, C6_requirement_parse_legacy_extra.1 "requests" (by decide)⟩

/-- C8: `get_dependencies([])` returns exactly `base`, and an unknown extra
never raises and contributes nothing while known extras are unioned in.
But the claimed non-fatal diagnostic for the unknown name is *not* emitted
for specifications built by `from_data`/`from_wheel`: their `defaultdict`
extras map never raises the `KeyError` the warning branch is guarding, so
the warning only fires for plain-dict specifications. -/
theorem C8_get_dependencies_unknown_extra :
    (∀ spec : RequirementSpecification,
      spec.get_dependencies [] = (spec.base, spec, []))
  ∧ (specC8.get_dependencies ["nope"]).2.2 = []
  ∧ (specC8.get_dependencies ["nope"]).1 = specC8.base
  ∧ (specC8.get_dependencies ["ex", "nope"]).1 =
      specC8.base ∪ {⟨"dep2", none⟩}
  ∧ (RequirementSpecification.emptySpec.get_dependencies ["nope"]).2.2 =
      [unknownExtraWarning "nope"] :=
  ⟨fun _ => rfl, by decide, by decide, by decide, by decide⟩

/-- C7: `get_links(candidate)` returns exactly the page links whose parsed
version equals the candidate's, as a permutation of that filter, sorted
ascending by the compatibility key (source links 0, incompatible wheels -1,
compatible wheels 1), so every binary-compatible wheel appears after every
other link in the result. -/
theorem C7_get_candidate_links_filter_and_sort
    (supported : SupportedTags) (packageLinks : List Link) (v : Version) :
    (indexGetLinks supported packageLinks v).Perm
        (packageLinks.filter fun l => l.info.version = v)
  ∧ (indexGetLinks supported packageLinks v).Sorted
        (fun a b => linkSortKey supported a ≤ linkSortKey supported b)
  ∧ (indexGetLinks supported packageLinks v).Pairwise
        (fun a b => linkSortKey supported a = 1 → linkSortKey supported b = 1)
  ∧ (∀ l ∈ indexGetLinks supported packageLinks v,
        l ∈ packageLinks ∧ l.info.version = v) := by
  haveI htotal : IsTotal Link
      (fun a b => linkSortKey supported a ≤ linkSortKey supported b) :=
    ⟨fun a b => le_total _ _⟩
  haveI htrans : IsTrans Link
      (fun a b => linkSortKey supported a ≤ linkSortKey supported b) :=
    ⟨fun a b c hab hbc => le_trans hab hbc⟩
  have hperm : (indexGetLinks supported packageLinks v).Perm
      (packageLinks.filter fun l => l.info.version = v) :=
    List.perm_insertionSort _ _
  have hsorted : (indexGetLinks supported packageLinks v).Sorted
      (fun a b => linkSortKey supported a ≤ linkSortKey supported b) :=
    List.sorted_insertionSort _ _
  refine ⟨hperm, hsorted, ?_, ?_⟩
  · refine List.Pairwise.imp ?_ hsorted
    intro a b hab
    intro h1
    exact le_antisymm (linkSortKey_le_one supported b) (h1 ▸ hab)
  · intro l hl
    have hmem := hperm.mem_iff.mp hl
    rcases List.mem_filter.mp hmem with ⟨h1, h2⟩
    exact ⟨h1, by simpa using h2⟩

/-- C7 witness: the membership part of
`C7_get_candidate_links_filter_and_sort` applied to a concrete page (wheel
listed before sdist) and the sdist element of its result. -/
theorem C7_get_candidate_links_filter_and_sort_witness :
    sdistLinkC1 ∈ [wheelLinkC1, sdistLinkC1]
  ∧ sdistLinkC1.info.version = "1.0" :=
  (C7_get_candidate_links_filter_and_sort supportedC1
      [wheelLinkC1, sdistLinkC1] "1.0").2.2.2 sdistLinkC1 (by decide)

/-- C9: on a cache miss `_get_package_links` fetches exactly
`posixpath.join(base_url, package)` once (also on failure — no retry
within the call): a 404 response raises `PackageNotFound`, any other
non-ok response raises `APIError` with the response's reason (both leaving
the cache unchanged), and an ok response's parsed body is returned and
inserted into the cache, where it is subsequently found. -/
theorem C9_package_links_fetch (fetch : String → HttpResponse)
    (base : String) (cache : PageCache) (pkg : String)
    (h : cache.lookup pkg = none) :
    ((getPackageLinks fetch base cache pkg).2.2 = [posixpathJoin base pkg])
  ∧ ((fetch (posixpathJoin base pkg)).status_code = 404 →
      getPackageLinks fetch base cache pkg =
        (.error (.packageNotFound pkg), cache, [posixpathJoin base pkg]))
  ∧ (¬ (fetch (posixpathJoin base pkg)).status_code = 404 →
      (fetch (posixpathJoin base pkg)).ok = false →
      getPackageLinks fetch base cache pkg =
        (.error (.apiError (fetch (posixpathJoin base pkg)).reason), cache,
         [posixpathJoin base pkg]))
  ∧ (∀ links, ¬ (fetch (posixpathJoin base pkg)).status_code = 404 →
      (fetch (posixpathJoin base pkg)).ok = true →
      parsePage base (fetch (posixpathJoin base pkg)).text = .ok links →
      getPackageLinks fetch base cache pkg =
        (.ok links, cache.insert pkg links, [posixpathJoin base pkg])
      ∧ (cache.insert pkg links).lookup pkg = some links) := by
  refine ⟨?_, ?_, ?_, ?_⟩
  · simp only [getPackageLinks, h]
    split
    · rfl
    · split
      · rfl
      · split <;> rfl
  · intro h404
    simp only [getPackageLinks, h, h404, if_pos]
  · intro hne hok
    simp only [getPackageLinks, h]
    rw [if_neg hne, hok]
    simp
  · intro links hne hok hparse
    refine ⟨?_, PageCache.lookup_insert cache pkg links⟩
    simp only [getPackageLinks, h]
    rw [if_neg hne, hok]
    simp only [Bool.not_true, Bool.false_eq_true, if_false, hparse]

/-- C9 witness: `C9_package_links_fetch` applied to an empty cache and a
transport answering 404, reproducing the spec's `missing-pkg` scenario. -/
theorem C9_package_links_fetch_witness :
    getPackageLinks fetch404 "https://idx/simple" emptyPageCache "missing-pkg"
      = (.error (.packageNotFound "missing-pkg"), emptyPageCache,
         ["https://idx/simple/missing-pkg"]) := by
  have h := C9_package_links_fetch fetch404 "https://idx/simple"
    emptyPageCache "missing-pkg" (by decide)
  have h2 := h.2.1 (by decide)
  rw [h2]
  rfl

/-- C5 counterexample: the parser does not resolve a relative href by the
standard URL-joining rules the claim states.  For the claim's own scenario
(base `https://idx/simple/pkg/`, relative href
`pkg-1.0-py3-none-any.whl#sha256=abc`) the standard join keeps the base's
path and yields `https://idx/simple/pkg/pkg-1.0-py3-none-any.whl`, but the
produced link's url is `https://idx/pkg-1.0-py3-none-any.whl`: the base's
path does not contribute. -/
theorem C5_url_joining_counterexample :
    parsePage scenarioBaseUrl scenarioEvents = .ok [scenarioLink]
  ∧ specUrljoin scenarioBaseUrl "pkg-1.0-py3-none-any.whl" =
      "https://idx/simple/pkg/pkg-1.0-py3-none-any.whl"
  ∧ scenarioLink.url = "https://idx/pkg-1.0-py3-none-any.whl"
  ∧ ¬ scenarioLink.url =
      specUrljoin scenarioBaseUrl "pkg-1.0-py3-none-any.whl" :=
  ⟨by decide, by decide, by decide, by decide⟩

/-- C5 (amended): for an anchor with an href, the parser strips the href's
fragment (retaining it as the checksum) and completes the reference by
component-wise replacement — each nonempty component of the split href
overrides the base URL's component, so a relative path replaces the base's
path wholesale instead of being merged onto it.  The scenario's asserted
outputs hold: the page with one relative wheel anchor produces exactly one
binary-artifact link with info `{pkg, 1.0, None, py3, none, any}` and
checksum `sha256=abc`, i.e. the pair `(sha256, abc)`. -/
theorem C5_href_resolution :
    (∀ baseUrl hrefVal links l,
      handleStarttag (urlsplit baseUrl) links ⟨"a", [("href", hrefVal)]⟩
        = .ok (links ++ [l]) →
      l.url = urlunsplit (overrideBaseParts (urlsplit baseUrl)
                { urlsplit hrefVal with fragment := "" })
      ∧ l.checksum = (urlsplit hrefVal).fragment)
  ∧ parsePage scenarioBaseUrl scenarioEvents = .ok [scenarioLink]
  ∧ scenarioLink.info = .wheel ⟨"pkg", "1.0", none, "py3", "none", "any"⟩
  ∧ scenarioLink.checksum = "sha256=abc"
  ∧ checksumParts scenarioLink.checksum = .ok ("sha256", "abc") := by
  refine ⟨?_, by decide, by decide, by decide, by decide⟩
  intro baseUrl hrefVal links l h
  simp only [handleStarttag, List.foldl] at h
  rw [if_neg (by simp)] at h
  split at h
  · next snd heq =>
    rw [if_pos trivial] at heq
    exact absurd heq (by simp)
  · next urlParts checksum pyspec heq =>
    rw [if_pos trivial] at heq
    injection heq with h1 h2
    injection h1 with h1
    injection h1 with h4 h5
    subst h4
    subst h5
    subst h2
    split at h
    · simp at h
    · next kind stem ext heq2 =>
      split at h
      · simp at h
      · next link heq3 =>
        have hl : link = l := by simpa using h
        subst hl
        exact mkLink_ok_fields _ _ _ _ _ _ _ heq3

/-- C5 witness: `C5_href_resolution`'s universally quantified part applied
to the scenario anchor. -/
theorem C5_href_resolution_witness :
    scenarioLink.url = urlunsplit (overrideBaseParts (urlsplit scenarioBaseUrl)
        { urlsplit scenarioHref with fragment := "" })
  ∧ scenarioLink.checksum = (urlsplit scenarioHref).fragment :=
  C5_href_resolution.1 scenarioBaseUrl scenarioHref [] scenarioLink (by decide)

end Petpeeve
